import Mathlib

/-!
Verification of the server core of the Secure-Instant-Messaging-System
repository against its natural-language specification.

The development shallowly embeds the parts of the Python source that the
claims are about:

* `safe_system/server/auth.py` — `AuthenticationManager` (registration,
  login, session tokens);
* `server---system/safe_system/server/storage.py` — `DatabaseManager`
  (the SQLite tables and their operations), with the database modelled as
  an explicit record of table contents passed through every operation;
* `server---system/safe_system/server/async_message_processor.py` — the
  per-tag message handlers;
* `safe_system/common/async_protocol.py` — `create_response`.

External library calls (bcrypt, hmac, base64, json) are not code of this
repository; they are modelled as explicit function parameters bundled in
`CryptoLib`, and the properties of those libraries that the source relies
on (decode round-trips, the base64 and hex alphabets avoiding the dot
character) appear as hypotheses of the theorems that need them.

Columns of type TIMESTAMP DEFAULT CURRENT_TIMESTAMP are modelled by an
explicit `now : Nat` clock argument where a claim depends on them
(`messages.timestamp`, `group_messages.timestamp`) and omitted where no
claim reads them (`created_at`, `last_login`, `last_activity`).
-/

namespace SecureIM

/-! ## Data model: rows of the tables created by `DatabaseManager.init_database` -/

/-- Row of the `users` table (storage.py, `init_database`).
`username` and `email` both carry UNIQUE constraints. -/
structure UserRow where
  user_id : Nat
  username : String
  email : String
  password_hash : String
  salt : String
  public_key : String
  private_key_encrypted : String
  is_online : Bool := false
  deriving DecidableEq, Repr

/-- Row of the `messages` table. `timestamp` is the CURRENT_TIMESTAMP
assigned at insertion, modelled as a `Nat`. -/
structure MessageRow where
  message_id : Nat
  sender_id : Nat
  receiver_id : Nat
  message_content : String
  message_type : String
  is_encrypted : Bool := true
  timestamp : Nat
  deriving DecidableEq, Repr

/-- Row of the `group_messages` table. -/
structure GroupMessageRow where
  message_id : Nat
  group_id : String
  sender_id : Nat
  message_content : String
  message_type : String
  is_encrypted : Bool := true
  timestamp : Nat
  deriving DecidableEq, Repr

/-- Row of the `sessions` table; `session_id` is the PRIMARY KEY. -/
structure SessionRow where
  session_id : String
  user_id : Nat
  is_active : Bool := true
  deriving DecidableEq, Repr

/-- Row of the `groups` table; `group_id` is the PRIMARY KEY. -/
structure GroupRow where
  group_id : String
  group_name : String
  creator_id : Nat
  deriving DecidableEq, Repr

/-- Row of the `group_members` table.  Its only key is the AUTOINCREMENT
primary key `id`; the schema declares NO unique constraint on
`(group_id, user_id)` (unlike `contacts` and `friendships`, which do carry
UNIQUE pair constraints). -/
structure GroupMemberRow where
  id : Nat
  group_id : String
  user_id : Nat
  deriving DecidableEq, Repr

/-- The persistent store: the table contents plus the next AUTOINCREMENT
values.  SQLite assigns strictly increasing rowids, modelled by the
`next_*` counters. -/
structure DB where
  users : List UserRow := []
  messages : List MessageRow := []
  group_messages : List GroupMessageRow := []
  sessions : List SessionRow := []
  groups : List GroupRow := []
  group_members : List GroupMemberRow := []
  next_user_id : Nat := 1
  next_message_id : Nat := 1
  next_group_message_id : Nat := 1
  next_group_member_id : Nat := 1
  deriving DecidableEq, Repr

/-! ## Storage operations (`DatabaseManager`, storage.py) -/

/-- Embeds `DatabaseManager.get_user_by_username`: `SELECT * FROM users
WHERE username = ?`, returning the first matching row. -/
def get_user_by_username (db : DB) (username : String) : Option UserRow :=
  db.users.find? (fun u => u.username == username)

/-- Embeds `DatabaseManager.create_user`: plain INSERT into `users`; an
`sqlite3.IntegrityError` (UNIQUE violation of `username` or `email`) is
caught and turned into `None` with the table unchanged. -/
def create_user (db : DB) (username email password_hash salt public_key
    private_key_encrypted : String) : Option Nat × DB :=
  if db.users.any (fun u => u.username == username || u.email == email) then
    (none, db)
  else
    (some db.next_user_id,
     { db with
        users := db.users ++
          [{ user_id := db.next_user_id, username := username, email := email,
             password_hash := password_hash, salt := salt,
             public_key := public_key,
             private_key_encrypted := private_key_encrypted }],
        next_user_id := db.next_user_id + 1 })

/-- Embeds `DatabaseManager.save_message`: INSERT into `messages` with
`is_encrypted` defaulting to TRUE; returns the fresh `lastrowid`. -/
def save_message (db : DB) (sender_id receiver_id : Nat)
    (message_content message_type : String) (now : Nat) : Option Nat × DB :=
  (some db.next_message_id,
   { db with
      messages := db.messages ++
        [{ message_id := db.next_message_id, sender_id := sender_id,
           receiver_id := receiver_id, message_content := message_content,
           message_type := message_type, timestamp := now }],
      next_message_id := db.next_message_id + 1 })

/-- Embeds `DatabaseManager.create_session`: `INSERT OR REPLACE INTO
sessions` keyed on the PRIMARY KEY `session_id`; always returns `True`. -/
def create_session (db : DB) (session_id : String) (user_id : Nat) :
    Bool × DB :=
  (true,
   { db with
      sessions := db.sessions.filter (fun s => s.session_id != session_id) ++
        [{ session_id := session_id, user_id := user_id }] })

/-- Embeds `DatabaseManager.add_group_member`: `INSERT OR REPLACE INTO
group_members (group_id, user_id)`.  Because `group_members` has no UNIQUE
constraint on `(group_id, user_id)` and the AUTOINCREMENT primary key of
the inserted row is fresh, OR REPLACE never finds a conflicting row and
the statement degenerates to a plain INSERT. -/
def add_group_member (db : DB) (group_id : String) (user_id : Nat) :
    Bool × DB :=
  (true,
   { db with
      group_members := db.group_members ++
        [{ id := db.next_group_member_id, group_id := group_id,
           user_id := user_id }],
      next_group_member_id := db.next_group_member_id + 1 })

/-- Embeds the existence part of `DatabaseManager.get_group_info`: the
SELECT joins `groups` with `users` on `creator_id`, so a group whose
creator row is absent is reported as not found. -/
def get_group_info (db : DB) (group_id : String) : Option GroupRow :=
  match db.groups.find? (fun g => g.group_id == group_id) with
  | none => none
  | some g =>
      if db.users.any (fun u => u.user_id == g.creator_id) then some g
      else none

/-! ## History queries (`DatabaseManager.get_history`) -/

/-- Embeds Python `str.isdigit` for the ASCII strings at issue: non-empty
and every character a digit. -/
def strIsDigit (s : String) : Bool :=
  !s.isEmpty && s.data.all (fun c => c.isDigit)

/-- Embeds `int(...)` on a digit string. -/
def strToNat (s : String) : Nat :=
  s.data.foldl (fun n c => n * 10 + (c.toNat - 48)) 0

/-- Embeds the Python truthiness test `if ... and user_id:` on the
optional `user_id` argument of `get_history`: `None` and `0` are falsy. -/
def pyTruthyNat (o : Option Nat) : Bool :=
  match o with
  | none => false
  | some n => n != 0

/-- Single row of a `get_history` result set: the message columns plus the
joined usernames (`sender_name`, and `receiver_name` for single chat). -/
structure HistoryRow where
  message_id : Nat
  sender_id : Nat
  receiver_id : Option Nat
  group_id : Option String
  message_content : String
  message_type : String
  timestamp : Nat
  sender_name : String
  receiver_name : Option String
  deriving DecidableEq, Repr

/-- The ORDER BY timestamp DESC ordering on result rows. -/
def histDescRel (a b : HistoryRow) : Prop :=
  b.timestamp ≤ a.timestamp

instance : DecidableRel histDescRel := fun a b =>
  inferInstanceAs (Decidable (b.timestamp ≤ a.timestamp))

instance : IsTotal HistoryRow histDescRel :=
  ⟨fun a b => Nat.le_total b.timestamp a.timestamp⟩

instance : IsTrans HistoryRow histDescRel :=
  ⟨fun _ _ _ hab hbc => Nat.le_trans hbc hab⟩

/-- The optional `timestamp >= start_time` / `timestamp <= end_time`
filters of `get_history`. -/
def inTimeRange (ts : Nat) (start_time end_time : Option Nat) : Bool :=
  (match start_time with | none => true | some st => st ≤ ts) &&
  (match end_time with | none => true | some et => ts ≤ et)

/-- The JOIN of a `messages` row with `users` twice (`u1` on `sender_id`,
`u2` on `receiver_id`); rows whose users are missing are dropped by the
inner join. -/
def singleJoin (db : DB) (m : MessageRow) : Option HistoryRow :=
  match db.users.find? (fun u => u.user_id == m.sender_id),
        db.users.find? (fun u => u.user_id == m.receiver_id) with
  | some u1, some u2 =>
      some { message_id := m.message_id, sender_id := m.sender_id,
             receiver_id := some m.receiver_id, group_id := none,
             message_content := m.message_content,
             message_type := m.message_type, timestamp := m.timestamp,
             sender_name := u1.username, receiver_name := some u2.username }
  | _, _ => none

/-- The JOIN of a `group_messages` row with `users` on `sender_id`. -/
def groupJoin (db : DB) (gm : GroupMessageRow) : Option HistoryRow :=
  match db.users.find? (fun u => u.user_id == gm.sender_id) with
  | some u =>
      some { message_id := gm.message_id, sender_id := gm.sender_id,
             receiver_id := none, group_id := some gm.group_id,
             message_content := gm.message_content,
             message_type := gm.message_type, timestamp := gm.timestamp,
             sender_name := u.username, receiver_name := none }
  | none => none

/-- The username-to-id resolution step of the single-chat branch of
`get_history`: a numeric `target_id` is used as an id directly, otherwise
it is looked up in `users` by username. -/
def resolveTarget (db : DB) (target_id : String) : Option Nat :=
  if strIsDigit target_id then some (strToNat target_id)
  else (db.users.find? (fun u => u.username == target_id)).map
    (fun u => u.user_id)

/-- Embeds `DatabaseManager.get_history`.  The single-chat branch runs
only when `chat_type = single` and `user_id` is truthy; an unresolvable
username returns the empty list.  Both query branches are WHERE-filter,
inner join, ORDER BY timestamp DESC, then OFFSET and LIMIT; any other
`chat_type` returns the empty list.  The embedding is a total function:
the Python wraps everything in try/except returning `[]`, so no call
raises. -/
def get_history (db : DB) (chat_type target_id : String)
    (user_id : Option Nat) (start_time end_time : Option Nat)
    (limit offset : Nat) : List HistoryRow :=
  if chat_type == "single" && pyTruthyNat user_id then
    match resolveTarget db target_id with
    | none => []
    | some target_user_id =>
        let uid := user_id.getD 0
        let rows := db.messages.filter (fun m =>
          ((m.sender_id == uid && m.receiver_id == target_user_id) ||
           (m.sender_id == target_user_id && m.receiver_id == uid)) &&
          inTimeRange m.timestamp start_time end_time)
        let joined := rows.filterMap (singleJoin db)
        ((List.insertionSort histDescRel joined).drop offset).take limit
  else if chat_type == "group" then
    let rows := db.group_messages.filter (fun gm =>
      gm.group_id == target_id &&
      inTimeRange gm.timestamp start_time end_time)
    let joined := rows.filterMap (groupJoin db)
    ((List.insertionSort histDescRel joined).drop offset).take limit
  else []

/-! ## Auth (`AuthenticationManager`, auth.py)

The session-token machinery of auth.py composes `json.dumps`,
`base64.b64encode`, and `hmac(...).hexdigest()`.  Those are external
libraries, so they enter the embedding as the function bundle `CryptoLib`;
theorems that need library facts (decode round-trips, output alphabets
avoiding the dot separator) carry them as hypotheses. -/

/-- The dict `{'user_id': ..., 'username': ..., 'timestamp': ...}` built
by `generate_session_token`; the `timestamp` field holds the
`secrets.token_hex(16)` nonce. -/
structure SessionData where
  user_id : Nat
  username : String
  timestamp : String
  deriving DecidableEq, Repr

/-- External library functions used by `AuthenticationManager`:
`bcrypt.checkpw`, `json.dumps`/`json.loads` on a session dict,
`base64.b64encode`/`b64decode` (decode failure is `none`), and
`hmac.new(key, msg, sha256).hexdigest()`. -/
structure CryptoLib where
  checkpw : String → String → Bool
  jsonEnc : SessionData → String
  jsonDec : String → Option SessionData
  b64encode : String → String
  b64decode : String → Option String
  hmacHex : String → String → String

/-- Embeds `AuthenticationManager.generate_hmac`. -/
def generate_hmac (lib : CryptoLib) (secret message : String) : String :=
  lib.hmacHex secret message

/-- Embeds `AuthenticationManager.verify_hmac`: recomputes the digest and
compares with `hmac.compare_digest` (constant-time equality). -/
def verify_hmac (lib : CryptoLib) (secret message signature : String) :
    Bool :=
  signature == generate_hmac lib secret message

/-- Embeds `AuthenticationManager.generate_session_token`:
`base64(json(session_data)) ++ "." ++ hexdigest`. -/
def generate_session_token (lib : CryptoLib) (secret : String)
    (user_id : Nat) (username nonce : String) : String :=
  let session_b64 := lib.b64encode (lib.jsonEnc
    { user_id := user_id, username := username, timestamp := nonce })
  session_b64 ++ "." ++ generate_hmac lib secret session_b64

/-- Helper for `token.rsplit(".", 1)` on the character list: splits at the
last dot, or returns `none` when no dot occurs (the source first checks
`"." not in token`). -/
def splitLastDot : List Char → Option (List Char × List Char)
  | [] => none
  | c :: rest =>
    match splitLastDot rest with
    | some (a, b) => some (c :: a, b)
    | none => if c = '.' then some ([], rest) else none

/-- String wrapper for `splitLastDot`. -/
def rsplitDot (s : String) : Option (String × String) :=
  (splitLastDot s.data).map (fun p => (String.mk p.1, String.mk p.2))

/-- Embeds `AuthenticationManager.verify_session_token`: split off the
signature, verify the HMAC, then base64-decode and json-decode the body;
every failure is `None`. -/
def verify_session_token (lib : CryptoLib) (secret token : String) :
    Option SessionData :=
  match rsplitDot token with
  | none => none
  | some (session_b64, signature) =>
      if verify_hmac lib secret session_b64 signature then
        match lib.b64decode session_b64 with
        | none => none
        | some session_json => lib.jsonDec session_json
      else none

/-- Result dict of `register_user` / `authenticate_user` (auth.py returns
plain dicts whose keys vary by outcome; absent keys are `none`). -/
structure AuthResult where
  success : Bool
  message : Option String := none
  error : Option String := none
  user_id : Option Nat := none
  username : Option String := none
  session_token : Option String := none
  public_key : Option String := none
  deriving DecidableEq, Repr

/-- Embeds `AuthenticationManager.authenticate_user`.  `nonce` is the
`secrets.token_hex(16)` value drawn inside `generate_session_token`,
passed explicitly.  In the embedding `create_session` cannot hit an I/O
error, so its `False` branch is present but unreachable. -/
def authenticate_user (lib : CryptoLib) (secret nonce : String) (db : DB)
    (username password : String) : AuthResult × DB :=
  if username == "" || password == "" then
    ({ success := false, error := some "用户名和密码不能为空" }, db)
  else
    match get_user_by_username db username with
    | none => ({ success := false, error := some "用户不存在" }, db)
    | some user =>
        if !(lib.checkpw password user.password_hash) then
          ({ success := false, error := some "密码错误" }, db)
        else
          let session_token :=
            generate_session_token lib secret user.user_id username nonce
          let r := create_session db session_token user.user_id
          if r.1 then
            ({ success := true, message := some "登录成功",
               user_id := some user.user_id, username := some username,
               session_token := some session_token,
               public_key := some user.public_key }, r.2)
          else
            ({ success := false, error := some "会话创建失败" }, r.2)

/-- Embeds `AuthenticationManager.register_user`.  The RSA keypair from
`generate_rsa_keypair` and the `(hash, salt)` pair from `hash_password`
(both externally random) are passed explicitly as `keypair` and `hashed`;
the private key is stored base64-encoded. -/
def register_user (lib : CryptoLib) (secret nonce : String)
    (keypair hashed : String × String) (db : DB)
    (username email password confirm_password : String) : AuthResult × DB :=
  if username == "" || email == "" || password == "" then
    ({ success := false, error := some "用户名、邮箱和密码不能为空" }, db)
  else if password ≠ confirm_password then
    ({ success := false, error := some "密码确认不匹配" }, db)
  else if password.length < 8 then
    ({ success := false, error := some "密码长度至少8位" }, db)
  else if (get_user_by_username db username).isSome then
    ({ success := false, error := some "用户名已存在" }, db)
  else
    let private_key_encrypted := lib.b64encode keypair.2
    let r := create_user db username email hashed.1 hashed.2 keypair.1
      private_key_encrypted
    match r.1 with
    | none => ({ success := false, error := some "用户创建失败" }, r.2)
    | some user_id =>
        let session_token :=
          generate_session_token lib secret user_id username nonce
        ({ success := true, message := some "注册成功",
           user_id := some user_id, username := some username,
           session_token := some session_token,
           public_key := some keypair.1 }, r.2)

/-! ## Message handlers (`AsyncMessageProcessor`) and `create_response` -/

/-- The `data` sub-dict of a message envelope; only the keys the handlers
read are modelled. -/
structure MsgData where
  content : Option String := none
  content_type : Option String := none
  deriving DecidableEq, Repr

/-- A decoded request envelope, with the keys the embedded handlers read.
`data = none` models an absent or empty (hence falsy) `data` dict;
`some md` models a non-empty dict. -/
structure Request where
  rtype : String
  sender : Option String := none
  recipient : Option String := none
  group_id : Option String := none
  data : Option MsgData := none
  deriving DecidableEq, Repr

/-- The `client_info` dict built by `AsyncSecureServer._handle_client_message`
from the live connection: before authentication `username` and `user_id`
are `None` and `is_authenticated` is false. -/
structure ClientInfo where
  username : Option String := none
  user_id : Option Nat := none
  is_authenticated : Bool := false
  deriving DecidableEq, Repr

/-- The `forward_to` key of a handler response: a single username for
direct messages, a username list for group fan-out. -/
inductive ForwardTo where
  | single (username : String)
  | multi (usernames : List String)
  deriving DecidableEq, Repr

/-- The `original_data` sub-dict attached to successful message
responses. -/
structure OriginalData where
  sender : Option String
  recipient : String
  data : MsgData
  deriving DecidableEq, Repr

/-- A handler response dict; absent JSON keys are `none`.  `rtype` models
the `type` key (named `rtype` because `type` is reserved in Lean). -/
structure ServerResponse where
  success : Bool
  message : Option String := none
  rtype : Option String := none
  response_to : Option String := none
  message_id : Option Nat := none
  group_id : Option String := none
  group_name : Option String := none
  forward_to : Option ForwardTo := none
  original_data : Option OriginalData := none
  deriving DecidableEq, Repr

/-- Embeds `AsyncProtocolProcessor.create_response_message`
(async_protocol.py): `{'success', 'message', 'timestamp'}` plus
`response_to` when the request carries a truthy `type`.  Note that it sets
NO `type` key on the response. -/
def create_response (req : Request) (success : Bool) (message : String) :
    ServerResponse :=
  { success := success, message := some message,
    response_to := if req.rtype == "" then none else some req.rtype }

/-- Embeds Python `a or b` on two optional strings (`data.get('sender')
or client_info.get('username')`): an empty string is falsy. -/
def pyOrStr (a b : Option String) : Option String :=
  match a with
  | some s => if s == "" then b else some s
  | none => b

/-- Embeds the Python truthiness test on an optional string. -/
def pyTruthyStr (o : Option String) : Bool :=
  match o with
  | some s => s != ""
  | none => false

/-- Embeds `AsyncMessageProcessor._handle_text_message`.  The effective
sender is `data.get('sender') or client_info.get('username')`; passing
`None` to `get_user_by_username` matches no row.  Nothing in the handler
or its callers consults `client_info['is_authenticated']`. -/
def handle_text_message (db : DB) (req : Request) (ci : ClientInfo)
    (now : Nat) : ServerResponse × DB :=
  let sender := pyOrStr req.sender ci.username
  if !pyTruthyStr req.recipient || req.data.isNone then
    (create_response req false "消息参数不完整", db)
  else
    match sender.bind (fun s => get_user_by_username db s) with
    | none => (create_response req false "发送者不存在", db)
    | some sender_info =>
        match req.recipient.bind (fun r => get_user_by_username db r) with
        | none => (create_response req false "接收者不存在", db)
        | some recipient_info =>
            let md := req.data.getD {}
            let r := save_message db sender_info.user_id
              recipient_info.user_id (md.content.getD "")
              (md.content_type.getD "text") now
            ({ success := true, message_id := r.1,
               rtype := some "text_message_response",
               forward_to := some (ForwardTo.single (req.recipient.getD "")),
               original_data := some
                 { sender := sender, recipient := req.recipient.getD "",
                   data := md } }, r.2)

/-- Embeds `AsyncMessageProcessor._handle_join_group`.  After the group
check the handler evaluates `self.db.is_group_member(group_id, sender_id)`;
`DatabaseManager` defines no such method, so the attribute lookup raises
`AttributeError`, which the enclosing `except` turns into the failure
response `"加入群组异常: " + str(e)` (the actual `str(e)` text quotes the
class and attribute names).  The membership table is never touched. -/
def handle_join_group (db : DB) (req : Request) (ci : ClientInfo) :
    ServerResponse × DB :=
  let sender := pyOrStr req.sender ci.username
  if !pyTruthyStr req.group_id then
    (create_response req false "群组ID不能为空", db)
  else if !pyTruthyStr sender then
    (create_response req false "发送者不能为空", db)
  else
    match sender.bind (fun s => get_user_by_username db s) with
    | none => (create_response req false "发送者不存在", db)
    | some _sender_info =>
        match get_group_info db (req.group_id.getD "") with
        | none => (create_response req false "群组不存在", db)
        | some _group_info =>
            (create_response req false "加入群组异常: AttributeError", db)

/-- Predicate picking the `messages` rows that match a request's resolved
sender, recipient, stored content and content type (the columns the
at-least-once-persistence property compares). -/
def matchingMsg (sinfo rinfo : UserRow) (md : MsgData) (m : MessageRow) :
    Bool :=
  m.sender_id == sinfo.user_id && m.receiver_id == rinfo.user_id &&
  m.message_content == md.content.getD "" &&
  m.message_type == md.content_type.getD "text"

/-! ## Concrete fixtures used by witnesses and counterexamples -/

/-- A registered user `alice` with id 1. -/
def aliceRow : UserRow :=
  { user_id := 1, username := "alice", email := "a@x", password_hash := "H",
    salt := "S", public_key := "PK", private_key_encrypted := "PKE" }

/-- A registered user `bob` with id 2. -/
def bobRow : UserRow :=
  { user_id := 2, username := "bob", email := "b@x", password_hash := "H2",
    salt := "S2", public_key := "PK2", private_key_encrypted := "PKE2" }

/-- Database holding exactly alice and bob. -/
def dbAB : DB := { users := [aliceRow, bobRow], next_user_id := 3 }

/-- Database holding only alice. -/
def dbA : DB := { users := [aliceRow], next_user_id := 2 }

/-- Database with alice, bob, a group `g1` created by alice, and alice as
its sole member. -/
def dbG : DB :=
  { users := [aliceRow, bobRow], next_user_id := 3,
    groups := [{ group_id := "g1", group_name := "g1", creator_id := 1 }],
    group_members := [{ id := 0, group_id := "g1", user_id := 1 }],
    next_group_member_id := 1 }

/-- A text_message envelope from alice to bob. -/
def reqTextAB : Request :=
  { rtype := "text_message", sender := some "alice", recipient := some "bob",
    data := some { content := some "aGk=", content_type := some "text" } }

/-- A text_message envelope from alice to the nonexistent user nobody. -/
def reqTextNobody : Request :=
  { rtype := "text_message", sender := some "alice",
    recipient := some "nobody",
    data := some { content := some "aGk=", content_type := some "text" } }

/-- A text_message envelope carrying no sender field. -/
def reqTextNoSender : Request :=
  { rtype := "text_message", recipient := some "bob",
    data := some { content := some "aGk=", content_type := some "text" } }

/-- A join_group envelope from bob for group g1. -/
def reqJoinG1 : Request :=
  { rtype := "join_group", group_id := some "g1", sender := some "bob" }

/-- Connection context of a connection that has not authenticated. -/
def ciAnon : ClientInfo := {}

/-- Connection context of alice after login. -/
def ciAlice : ClientInfo :=
  { username := some "alice", user_id := some 1, is_authenticated := true }

/-- Connection context of bob after login. -/
def ciBob : ClientInfo :=
  { username := some "bob", user_id := some 2, is_authenticated := true }

/-- A concrete instantiation of the external-library bundle used by the
witnesses; its codec round-trips on the session payloads they exercise. -/
def libW : CryptoLib :=
  { checkpw := fun p h => p == "pw12345678" && h == "H",
    jsonEnc := fun d => String.mk (List.replicate d.user_id 'a'),
    jsonDec := fun s =>
      some { user_id := s.data.length, username := "alice", timestamp := "n" },
    b64encode := fun s => s,
    b64decode := fun s => some s,
    hmacHex := fun _ _ => "h" }

/-- The empty database produced by `init_database`. -/
def dbEmpty : DB := {}

/-! ## Theorems -/

/-- Mapping a sorted history list to its timestamps yields a
non-increasing sequence. -/
theorem sorted_hist_map (l : List HistoryRow)
    (h : List.Sorted histDescRel l) :
    List.Sorted (fun a b : Nat => b ≤ a)
      (l.map (fun x => x.timestamp)) := by
  rw [List.Sorted, List.pairwise_map]
  exact h

/-- Sorting then applying OFFSET and LIMIT leaves the timestamp sequence
non-increasing. -/
theorem sorted_hist_sort_drop_take (l : List HistoryRow) (off lim : Nat) :
    List.Sorted (fun a b : Nat => b ≤ a)
      (((((List.insertionSort histDescRel l).drop off).take lim)).map
        (fun x => x.timestamp)) := by
  apply sorted_hist_map
  exact (List.sorted_insertionSort histDescRel l).sublist
    ((List.take_sublist _ _).trans (List.drop_sublist _ _))

/-- C9: for every history query (single or group chat, with any
since/until/limit/offset), the sequence of timestamps of the rows
returned by `get_history` is non-increasing (rows are newest-first). -/
theorem C9_history_ordering (db : DB) (chat_type target_id : String)
    (user_id : Option Nat) (start_time end_time : Option Nat)
    (limit offset : Nat) :
    List.Sorted (fun a b : Nat => b ≤ a)
      ((get_history db chat_type target_id user_id start_time end_time
          limit offset).map (fun h => h.timestamp)) := by
  by_cases h1 : (chat_type == "single" && pyTruthyNat user_id) = true
  · rw [get_history, if_pos h1]
    cases hres : resolveTarget db target_id with
    | none => simp
    | some tid => exact sorted_hist_sort_drop_take _ _ _
  · by_cases h2 : (chat_type == "group") = true
    · rw [get_history, if_neg (by simp [h1]), if_pos h2]
      exact sorted_hist_sort_drop_take _ _ _
    · rw [get_history, if_neg (by simp [h1]), if_neg (by simp [h2])]
      simp

/-- C8: a single-chat history query whose non-numeric target names no
existing user returns the empty list (the embedding is a total function,
so no exception is possible). -/
theorem C8_unknown_target_empty (db : DB) (target_id : String)
    (user_id : Option Nat) (start_time end_time : Option Nat)
    (limit offset : Nat)
    (hnd : strIsDigit target_id = false)
    (hnf : db.users.find? (fun u => u.username == target_id) = none) :
    get_history db "single" target_id user_id start_time end_time
      limit offset = [] := by
  by_cases hu : pyTruthyNat user_id = true
  · rw [get_history, if_pos (by simp [hu])]
    simp [resolveTarget, hnd, hnf]
  · rw [get_history, if_neg (by simp [hu]), if_neg (by simp)]

/-- Witness for C8 at a concrete database and target. -/
theorem C8_witness :
    get_history dbA "single" "zed" (some 1) none none 50 0 = [] :=
  C8_unknown_target_empty dbA "zed" (some 1) none none 50 0
    (by decide) (by decide)

/-- A dot-free character list has no last dot to split at. -/
theorem splitLastDot_of_not_mem (l : List Char) (h : '.' ∉ l) :
    splitLastDot l = none := by
  induction l with
  | nil => rfl
  | cons c rest ih =>
      have hc : c ≠ '.' := fun hcc => h (hcc ▸ List.mem_cons_self c rest)
      have hr : '.' ∉ rest := fun hm => h (List.mem_cons_of_mem c hm)
      simp [splitLastDot, ih hr, hc]

/-- Splitting at the last dot of `a ++ "." ++ b` recovers `a` and `b`
when neither side contains a dot. -/
theorem splitLastDot_append (a b : List Char) (ha : '.' ∉ a)
    (hb : '.' ∉ b) :
    splitLastDot (a ++ '.' :: b) = some (a, b) := by
  induction a with
  | nil => simp [splitLastDot, splitLastDot_of_not_mem b hb]
  | cons c rest ih =>
      have hr : '.' ∉ rest := fun hm => ha (List.mem_cons_of_mem c hm)
      simp [splitLastDot, ih hr]

/-- A token produced by `generate_session_token` is accepted by
`verify_session_token` under the same secret and decodes back to its
session data, provided the external codec round-trips on that payload and
the base64 and hex outputs avoid the dot separator. -/
theorem verify_generate_token (lib : CryptoLib) (secret : String)
    (uid : Nat) (uname nonce : String)
    (hb : lib.b64decode (lib.b64encode (lib.jsonEnc
        { user_id := uid, username := uname, timestamp := nonce })) =
      some (lib.jsonEnc
        { user_id := uid, username := uname, timestamp := nonce }))
    (hj : lib.jsonDec (lib.jsonEnc
        { user_id := uid, username := uname, timestamp := nonce }) =
      some { user_id := uid, username := uname, timestamp := nonce })
    (hd1 : '.' ∉ (lib.b64encode (lib.jsonEnc
        { user_id := uid, username := uname, timestamp := nonce })).data)
    (hd2 : '.' ∉ (lib.hmacHex secret (lib.b64encode (lib.jsonEnc
        { user_id := uid, username := uname, timestamp := nonce }))).data) :
    verify_session_token lib secret
      (generate_session_token lib secret uid uname nonce) =
      some { user_id := uid, username := uname, timestamp := nonce } := by
  set body := lib.b64encode (lib.jsonEnc
    { user_id := uid, username := uname, timestamp := nonce }) with hbody
  have hdata :
      (body ++ "." ++ lib.hmacHex secret body).data =
      body.data ++ '.' :: (lib.hmacHex secret body).data := by
    simp [String.data_append]
  rw [verify_session_token, generate_session_token, generate_hmac,
    rsplitDot, ← hbody, hdata, splitLastDot_append _ _ hd1 hd2]
  simp only [Option.map_some']
  rw [show String.mk body.data = body from rfl]
  rw [show String.mk (lib.hmacHex secret body).data =
    lib.hmacHex secret body from rfl]
  simp [verify_hmac, generate_hmac, hb, hj]

/-- C1: whenever `authenticate_user` answers success, the submitted
password verifies against the stored hash and the issued session token is
accepted by `verify_session_token`, which returns the user's id and
username; whenever it answers failure, the sessions table is unchanged.
The four codec hypotheses state the relied-on behaviour of the external
json/base64/hmac libraries. -/
theorem C1_auth_integrity (lib : CryptoLib) (secret nonce : String)
    (db : DB) (username password : String)
    (hb : ∀ uid : Nat,
      lib.b64decode (lib.b64encode (lib.jsonEnc
        { user_id := uid, username := username, timestamp := nonce })) =
      some (lib.jsonEnc
        { user_id := uid, username := username, timestamp := nonce }))
    (hj : ∀ uid : Nat,
      lib.jsonDec (lib.jsonEnc
        { user_id := uid, username := username, timestamp := nonce }) =
      some { user_id := uid, username := username, timestamp := nonce })
    (hd1 : ∀ uid : Nat,
      '.' ∉ (lib.b64encode (lib.jsonEnc
        { user_id := uid, username := username, timestamp := nonce })).data)
    (hd2 : ∀ s : String, '.' ∉ (lib.hmacHex secret s).data) :
    ((authenticate_user lib secret nonce db username password).1.success =
        true →
      ∃ user, get_user_by_username db username = some user ∧
        lib.checkpw password user.password_hash = true ∧
        (authenticate_user lib secret nonce db username
          password).1.user_id = some user.user_id ∧
        (authenticate_user lib secret nonce db username
          password).1.username = some username ∧
        ∃ tok, (authenticate_user lib secret nonce db username
            password).1.session_token = some tok ∧
          verify_session_token lib secret tok =
            some { user_id := user.user_id, username := username,
                   timestamp := nonce }) ∧
    ((authenticate_user lib secret nonce db username password).1.success =
        false →
      (authenticate_user lib secret nonce db username
        password).2.sessions = db.sessions) := by
  by_cases h0 : (username == "" || password == "") = true
  · simp [authenticate_user, h0]
  · cases hu : get_user_by_username db username with
    | none => simp [authenticate_user, h0, hu]
    | some user =>
        by_cases hc : lib.checkpw password user.password_hash = true
        · constructor
          · intro _
            refine ⟨user, rfl, hc, ?_, ?_, ?_⟩
            · simp [authenticate_user, h0, hu, hc, create_session]
            · simp [authenticate_user, h0, hu, hc, create_session]
            · refine ⟨generate_session_token lib secret user.user_id
                username nonce, ?_, ?_⟩
              · simp [authenticate_user, h0, hu, hc, create_session]
              · exact verify_generate_token lib secret user.user_id
                  username nonce
                  (hb user.user_id) (hj user.user_id) (hd1 user.user_id)
                  (hd2 _)
          · intro hfail
            simp [authenticate_user, h0, hu, hc, create_session] at hfail
        · simp [authenticate_user, h0, hu, hc]

/-- Witness for C1 at a concrete library, database and credentials. -/
theorem C1_witness :
    ((authenticate_user libW "k" "n" dbA "alice" "pw12345678").1.success =
        true →
      ∃ user, get_user_by_username dbA "alice" = some user ∧
        libW.checkpw "pw12345678" user.password_hash = true ∧
        (authenticate_user libW "k" "n" dbA "alice"
          "pw12345678").1.user_id = some user.user_id ∧
        (authenticate_user libW "k" "n" dbA "alice"
          "pw12345678").1.username = some "alice" ∧
        ∃ tok, (authenticate_user libW "k" "n" dbA "alice"
            "pw12345678").1.session_token = some tok ∧
          verify_session_token libW "k" tok =
            some { user_id := user.user_id, username := "alice",
                   timestamp := "n" }) ∧
    ((authenticate_user libW "k" "n" dbA "alice" "pw12345678").1.success =
        false →
      (authenticate_user libW "k" "n" dbA "alice"
        "pw12345678").2.sessions = dbA.sessions) :=
  C1_auth_integrity libW "k" "n" dbA "alice" "pw12345678"
    (fun _ => rfl)
    (fun uid => by simp [libW])
    (fun uid => by simp [libW, List.mem_replicate])
    (by intro s; simp [libW])

/-- Inversion of a successful registration: the username was free, all
validations passed, and the result is exactly one fresh `users` row plus
a success response carrying a session token. -/
theorem register_success_state (lib : CryptoLib) (secret nonce : String)
    (keypair hashed : String × String) (db : DB) (u e p c : String)
    (h : (register_user lib secret nonce keypair hashed db u e p
      c).1.success = true) :
    u ≠ "" ∧
    get_user_by_username db u = none ∧
    (register_user lib secret nonce keypair hashed db u e p c).1 =
      { success := true, message := some "注册成功",
        user_id := some db.next_user_id, username := some u,
        session_token := some (generate_session_token lib secret
          db.next_user_id u nonce),
        public_key := some keypair.1 } ∧
    (register_user lib secret nonce keypair hashed db u e p c).2 =
      { db with
          users := db.users ++
            [{ user_id := db.next_user_id, username := u, email := e,
               password_hash := hashed.1, salt := hashed.2,
               public_key := keypair.1,
               private_key_encrypted := lib.b64encode keypair.2 }],
          next_user_id := db.next_user_id + 1 } := by
  by_cases h1 : (u == "" || e == "" || p == "") = true
  · simp [register_user, h1] at h
  · by_cases h2 : p ≠ c
    · simp [register_user, h1, h2] at h
    · by_cases h3 : p.length < 8
      · simp [register_user, h1, h2, h3] at h
      · by_cases h4 : (get_user_by_username db u).isSome = true
        · simp [register_user, h1, h2, h3, h4] at h
        · by_cases h5 : db.users.any
              (fun x => x.username == u || x.email == e) = true
          · simp [register_user, create_user, h1, h2, h3, h4, h5] at h
          · refine ⟨?_, ?_, ?_, ?_⟩
            · intro hu
              apply h1
              simp [hu]
            · exact Option.not_isSome_iff_eq_none.mp
                (fun hs => h4 hs)
            · simp [register_user, create_user, h1, h2, h3, h4, h5]
            · simp [register_user, create_user, h1, h2, h3, h4, h5]

/-- After a successful registration of `u`, looking `u` up finds the
fresh row. -/
theorem lookup_after_register (lib : CryptoLib) (secret nonce : String)
    (keypair hashed : String × String) (db : DB) (u e p c : String)
    (h : (register_user lib secret nonce keypair hashed db u e p
      c).1.success = true) :
    get_user_by_username
      (register_user lib secret nonce keypair hashed db u e p c).2 u =
    some { user_id := db.next_user_id, username := u, email := e,
           password_hash := hashed.1, salt := hashed.2,
           public_key := keypair.1,
           private_key_encrypted := lib.b64encode keypair.2 } := by
  obtain ⟨_, hnone, _, hstate⟩ :=
    register_success_state lib secret nonce keypair hashed db u e p c h
  rw [hstate, get_user_by_username]
  rw [get_user_by_username] at hnone
  simp [List.find?_append, hnone]

/-- C3: if a registration of `username` succeeds, a second, otherwise
well-formed register request for the same `username` fails with the
username-exists error and leaves the database unchanged; consequently any
registration that succeeds on the resulting state used a different
username. -/
theorem C3_registration_uniqueness (lib : CryptoLib)
    (secret nonce : String) (kp1 hp1 kp2 hp2 : String × String) (db : DB)
    (username email password confirm email2 password2 confirm2 : String)
    (h1 : (register_user lib secret nonce kp1 hp1 db username email
      password confirm).1.success = true)
    (hem2 : email2 ≠ "") (hpw2 : password2 ≠ "")
    (hcf2 : ¬ password2 ≠ confirm2) (hln2 : ¬ password2.length < 8) :
    ((register_user lib secret nonce kp2 hp2
        (register_user lib secret nonce kp1 hp1 db username email
          password confirm).2
        username email2 password2 confirm2).1.success = false ∧
      (register_user lib secret nonce kp2 hp2
        (register_user lib secret nonce kp1 hp1 db username email
          password confirm).2
        username email2 password2 confirm2).1.error =
          some "用户名已存在" ∧
      (register_user lib secret nonce kp2 hp2
        (register_user lib secret nonce kp1 hp1 db username email
          password confirm).2
        username email2 password2 confirm2).2 =
      (register_user lib secret nonce kp1 hp1 db username email password
        confirm).2) ∧
    (∀ (kp3 hp3 : String × String) (u2 e2 p2 c2 : String),
      (register_user lib secret nonce kp3 hp3
        (register_user lib secret nonce kp1 hp1 db username email
          password confirm).2 u2 e2 p2 c2).1.success = true →
      u2 ≠ username) := by
  obtain ⟨hne, _, _, _⟩ :=
    register_success_state lib secret nonce kp1 hp1 db username email
      password confirm h1
  have hlook := lookup_after_register lib secret nonce kp1 hp1 db
    username email password confirm h1
  set db1 := (register_user lib secret nonce kp1 hp1 db username email
    password confirm).2 with hdb1
  constructor
  · have hcond1 :
        (username == "" || email2 == "" || password2 == "") = false := by
      simp [hne, hem2, hpw2]
    simp [register_user, hcond1, hcf2, hln2, hlook]
  · intro kp3 hp3 u2 e2 p2 c2 hsucc heq
    subst heq
    obtain ⟨_, hnone2, _, _⟩ :=
      register_success_state lib secret nonce kp3 hp3 _ u2 e2 p2 c2 hsucc
    rw [hlook] at hnone2
    cases hnone2

/-- A generated session token is a non-empty string (it always contains
the dot separator). -/
theorem generate_session_token_ne_empty (lib : CryptoLib)
    (secret : String) (uid : Nat) (uname nonce : String) :
    generate_session_token lib secret uid uname nonce ≠ "" := by
  intro hcontra
  have hlen := congrArg String.length hcontra
  rw [generate_session_token] at hlen
  simp [String.length_append] at hlen
  exact absurd hlen.1.2 (by decide)

/-- C10: a successful registration returns a non-empty session token but
inserts no sessions row; it changes only the `users` table (sessions,
messages, groups, group membership and group messages are untouched). -/
theorem C10_register_sessions_frame (lib : CryptoLib)
    (secret nonce : String) (keypair hashed : String × String) (db : DB)
    (u e p c : String)
    (h : (register_user lib secret nonce keypair hashed db u e p
      c).1.success = true) :
    (∃ t, (register_user lib secret nonce keypair hashed db u e p
        c).1.session_token = some t ∧ t ≠ "") ∧
    (register_user lib secret nonce keypair hashed db u e p
      c).2.sessions = db.sessions ∧
    (register_user lib secret nonce keypair hashed db u e p
      c).2.messages = db.messages ∧
    (register_user lib secret nonce keypair hashed db u e p
      c).2.groups = db.groups ∧
    (register_user lib secret nonce keypair hashed db u e p
      c).2.group_members = db.group_members ∧
    (register_user lib secret nonce keypair hashed db u e p
      c).2.group_messages = db.group_messages ∧
    (register_user lib secret nonce keypair hashed db u e p
      c).2.users = db.users ++
        [{ user_id := db.next_user_id, username := u, email := e,
           password_hash := hashed.1, salt := hashed.2,
           public_key := keypair.1,
           private_key_encrypted := lib.b64encode keypair.2 }] := by
  obtain ⟨_, _, hresp, hstate⟩ :=
    register_success_state lib secret nonce keypair hashed db u e p c h
  refine ⟨⟨generate_session_token lib secret db.next_user_id u nonce,
    ?_, generate_session_token_ne_empty lib secret db.next_user_id u
      nonce⟩, ?_, ?_, ?_, ?_, ?_, ?_⟩
  · rw [hresp]
  · rw [hstate]
  · rw [hstate]
  · rw [hstate]
  · rw [hstate]
  · rw [hstate]
  · rw [hstate]

/-- Witness for C3 at a concrete pair of register requests. -/
theorem C3_witness :
    ((register_user libW "k" "n" ("PK", "SK") ("H", "S")
        (register_user libW "k" "n" ("PK", "SK") ("H", "S") dbEmpty
          "alice" "a@x" "pw123456" "pw123456").2
        "alice" "b@x" "pw123456" "pw123456").1.success = false ∧
      (register_user libW "k" "n" ("PK", "SK") ("H", "S")
        (register_user libW "k" "n" ("PK", "SK") ("H", "S") dbEmpty
          "alice" "a@x" "pw123456" "pw123456").2
        "alice" "b@x" "pw123456" "pw123456").1.error =
          some "用户名已存在" ∧
      (register_user libW "k" "n" ("PK", "SK") ("H", "S")
        (register_user libW "k" "n" ("PK", "SK") ("H", "S") dbEmpty
          "alice" "a@x" "pw123456" "pw123456").2
        "alice" "b@x" "pw123456" "pw123456").2 =
      (register_user libW "k" "n" ("PK", "SK") ("H", "S") dbEmpty
        "alice" "a@x" "pw123456" "pw123456").2) ∧
    (∀ (kp3 hp3 : String × String) (u2 e2 p2 c2 : String),
      (register_user libW "k" "n" kp3 hp3
        (register_user libW "k" "n" ("PK", "SK") ("H", "S") dbEmpty
          "alice" "a@x" "pw123456" "pw123456").2 u2 e2 p2 c2).1.success =
        true → u2 ≠ "alice") :=
  C3_registration_uniqueness libW "k" "n" ("PK", "SK") ("H", "S")
    ("PK", "SK") ("H", "S") dbEmpty "alice" "a@x" "pw123456" "pw123456"
    "b@x" "pw123456" "pw123456"
    (by decide) (by decide) (by decide) (by decide) (by decide)

/-- Witness for C10 at a concrete successful registration. -/
theorem C10_witness :
    (∃ t, (register_user libW "k" "n" ("PK", "SK") ("H", "S") dbEmpty
        "alice" "a@x" "pw123456" "pw123456").1.session_token = some t ∧
      t ≠ "") ∧
    (register_user libW "k" "n" ("PK", "SK") ("H", "S") dbEmpty "alice"
      "a@x" "pw123456" "pw123456").2.sessions = dbEmpty.sessions ∧
    (register_user libW "k" "n" ("PK", "SK") ("H", "S") dbEmpty "alice"
      "a@x" "pw123456" "pw123456").2.messages = dbEmpty.messages ∧
    (register_user libW "k" "n" ("PK", "SK") ("H", "S") dbEmpty "alice"
      "a@x" "pw123456" "pw123456").2.groups = dbEmpty.groups ∧
    (register_user libW "k" "n" ("PK", "SK") ("H", "S") dbEmpty "alice"
      "a@x" "pw123456" "pw123456").2.group_members =
        dbEmpty.group_members ∧
    (register_user libW "k" "n" ("PK", "SK") ("H", "S") dbEmpty "alice"
      "a@x" "pw123456" "pw123456").2.group_messages =
        dbEmpty.group_messages ∧
    (register_user libW "k" "n" ("PK", "SK") ("H", "S") dbEmpty "alice"
      "a@x" "pw123456" "pw123456").2.users = dbEmpty.users ++
        [{ user_id := dbEmpty.next_user_id, username := "alice",
           email := "a@x", password_hash := "H", salt := "S",
           public_key := "PK",
           private_key_encrypted := libW.b64encode "SK" }] :=
  C10_register_sessions_frame libW "k" "n" ("PK", "SK") ("H", "S")
    dbEmpty "alice" "a@x" "pw123456" "pw123456" (by decide)

/-- Evaluation of `_handle_text_message` on its success branch: one fresh
row is appended to `messages` with the payload stored unchanged, and the
response carries the fresh id, the `text_message_response` type, and the
fan-out target. -/
theorem handle_text_message_success_eq (db : DB) (req : Request)
    (ci : ClientInfo) (now : Nat) (s r : String) (md : MsgData)
    (sinfo rinfo : UserRow)
    (hrne : r ≠ "")
    (hs : pyOrStr req.sender ci.username = some s)
    (hr : req.recipient = some r)
    (hd : req.data = some md)
    (hsl : get_user_by_username db s = some sinfo)
    (hrl : get_user_by_username db r = some rinfo) :
    handle_text_message db req ci now =
      ({ success := true, message_id := some db.next_message_id,
         rtype := some "text_message_response",
         forward_to := some (ForwardTo.single r),
         original_data := some
           { sender := some s, recipient := r, data := md } },
       { db with
          messages := db.messages ++
            [{ message_id := db.next_message_id,
               sender_id := sinfo.user_id, receiver_id := rinfo.user_id,
               message_content := md.content.getD "",
               message_type := md.content_type.getD "text",
               timestamp := now }],
          next_message_id := db.next_message_id + 1 }) := by
  simp [handle_text_message, pyTruthyStr, hs, hr, hd, hsl, hrl, hrne,
    save_message]

/-- C4: whenever a text_message request is answered with success, the
effective sender and the recipient resolved to users, and the `messages`
table grew by exactly one row whose content is the request's payload
stored unchanged with its content type preserved; if no identical row
pre-existed, exactly one row now matches the request's sender, receiver,
content and content type. -/
theorem C4_text_message_persistence (db : DB) (req : Request)
    (ci : ClientInfo) (now : Nat)
    (hsucc : (handle_text_message db req ci now).1.success = true) :
    ∃ s r md sinfo rinfo,
      pyOrStr req.sender ci.username = some s ∧
      req.recipient = some r ∧
      req.data = some md ∧
      get_user_by_username db s = some sinfo ∧
      get_user_by_username db r = some rinfo ∧
      (handle_text_message db req ci now).2.messages =
        db.messages ++
          [{ message_id := db.next_message_id,
             sender_id := sinfo.user_id, receiver_id := rinfo.user_id,
             message_content := md.content.getD "",
             message_type := md.content_type.getD "text",
             timestamp := now }] ∧
      (db.messages.filter (matchingMsg sinfo rinfo md) = [] →
        ((handle_text_message db req ci now).2.messages.filter
          (matchingMsg sinfo rinfo md)).length = 1) := by
  by_cases hcond : (!pyTruthyStr req.recipient || req.data.isNone) = true
  · simp [handle_text_message, create_response, hcond] at hsucc
  · have hcond2 : pyTruthyStr req.recipient = true ∧
        ¬ req.data = none := by
      simpa using hcond
    cases hsb : (pyOrStr req.sender ci.username).bind
        (fun s => get_user_by_username db s) with
    | none =>
        simp [handle_text_message, create_response, hcond, hsb] at hsucc
    | some sinfo =>
        cases hrb : req.recipient.bind
            (fun r => get_user_by_username db r) with
        | none =>
            simp [handle_text_message, create_response, hcond, hsb,
              hrb] at hsucc
        | some rinfo =>
            obtain ⟨s, hs, hsl⟩ := Option.bind_eq_some.mp hsb
            obtain ⟨r, hr, hrl⟩ := Option.bind_eq_some.mp hrb
            have hrne : r ≠ "" := by
              intro hre
              rw [hr, hre] at hcond2
              simp [pyTruthyStr] at hcond2
            cases hd : req.data with
            | none => rw [hd] at hcond2; simp at hcond2
            | some md =>
                have heval := handle_text_message_success_eq db req ci
                  now s r md sinfo rinfo hrne hs hr hd hsl hrl
                refine ⟨s, r, md, sinfo, rinfo, hs, hr, rfl, hsl, hrl,
                  ?_, ?_⟩
                · rw [heval]
                · intro hfresh
                  rw [heval]
                  simp only [List.filter_append, hfresh,
                    List.nil_append]
                  simp [matchingMsg]

/-- Witness for C4 at a concrete successful text message. -/
theorem C4_witness :
    ∃ s r md sinfo rinfo,
      pyOrStr reqTextAB.sender ciAlice.username = some s ∧
      reqTextAB.recipient = some r ∧
      reqTextAB.data = some md ∧
      get_user_by_username dbAB s = some sinfo ∧
      get_user_by_username dbAB r = some rinfo ∧
      (handle_text_message dbAB reqTextAB ciAlice 7).2.messages =
        dbAB.messages ++
          [{ message_id := dbAB.next_message_id,
             sender_id := sinfo.user_id, receiver_id := rinfo.user_id,
             message_content := md.content.getD "",
             message_type := md.content_type.getD "text",
             timestamp := 7 }] ∧
      (dbAB.messages.filter (matchingMsg sinfo rinfo md) = [] →
        ((handle_text_message dbAB reqTextAB ciAlice 7).2.messages.filter
          (matchingMsg sinfo rinfo md)).length = 1) :=
  C4_text_message_persistence dbAB reqTextAB ciAlice 7 (by decide)

/-- C2 counterexample: on a connection that has never authenticated
(`username`/`user_id` unset, `is_authenticated` false), a text_message
envelope whose own `sender` field names an existing user is processed
normally — success response, a row persisted, fan-out planned — so the
claim that every such request is rejected is false. -/
theorem C2_counterexample :
    (handle_text_message dbAB reqTextAB ciAnon 7).1.success = true ∧
    (handle_text_message dbAB reqTextAB ciAnon 7).2.messages.length =
      dbAB.messages.length + 1 ∧
    (handle_text_message dbAB reqTextAB ciAnon 7).1.forward_to =
      some (ForwardTo.single "bob") := by
  decide

/-- C2 as amended: on an unauthenticated connection, a text_message is
rejected — failure response, no persisted row, no fan-out — exactly when
the envelope itself carries no truthy `sender` field (so the effective
sender is missing). -/
theorem C2_unauth_reject (db : DB) (req : Request) (ci : ClientInfo)
    (now : Nat)
    (hci : ci.username = none)
    (hs : req.sender = none ∨ req.sender = some "") :
    (handle_text_message db req ci now).1.success = false ∧
    (handle_text_message db req ci now).1.forward_to = none ∧
    (handle_text_message db req ci now).2 = db := by
  have hsender : pyOrStr req.sender ci.username = none := by
    rcases hs with h | h <;> simp [pyOrStr, h, hci]
  by_cases hcond : (!pyTruthyStr req.recipient || req.data.isNone) = true
  · simp [handle_text_message, hcond, create_response]
  · simp [handle_text_message, hcond, hsender, create_response]

/-- Witness for the amended C2 at a concrete senderless envelope. -/
theorem C2_witness :
    (handle_text_message dbAB reqTextNoSender ciAnon 7).1.success =
      false ∧
    (handle_text_message dbAB reqTextNoSender ciAnon 7).1.forward_to =
      none ∧
    (handle_text_message dbAB reqTextNoSender ciAnon 7).2 = dbAB :=
  C2_unauth_reject dbAB reqTextNoSender ciAnon 7 rfl (Or.inl rfl)

/-- C5 counterexample: the failure response for an unknown recipient is
built by `create_response`, which sets `response_to` but no `type` key,
so the claimed `type = text_message_response` envelope is not what the
code returns. -/
theorem C5_counterexample :
    (handle_text_message dbA reqTextNobody ciAlice 3).1.success = false ∧
    (handle_text_message dbA reqTextNobody ciAlice 3).1.message =
      some "接收者不存在" ∧
    (handle_text_message dbA reqTextNobody ciAlice 3).1.rtype = none ∧
    (handle_text_message dbA reqTextNobody ciAlice 3).1.response_to =
      some "text_message" ∧
    (handle_text_message dbA reqTextNobody ciAlice 3).2 = dbA := by
  decide

/-- C5 as amended: for a text_message whose sender resolves but whose
recipient names no user, the handler returns the `create_response`
failure envelope — `success:false`, the recipient-not-found message,
`response_to:"text_message"` and no `type` key — and the database is
unchanged (no row persisted). -/
theorem C5_unknown_recipient (db : DB) (req : Request) (ci : ClientInfo)
    (now : Nat) (s r : String) (sinfo : UserRow)
    (hrt : req.rtype = "text_message")
    (hs : pyOrStr req.sender ci.username = some s)
    (hsl : get_user_by_username db s = some sinfo)
    (hr : req.recipient = some r) (hrne : r ≠ "")
    (hd : req.data.isNone = false)
    (hrl : get_user_by_username db r = none) :
    (handle_text_message db req ci now).1.success = false ∧
    (handle_text_message db req ci now).1.message =
      some "接收者不存在" ∧
    (handle_text_message db req ci now).1.rtype = none ∧
    (handle_text_message db req ci now).1.response_to =
      some "text_message" ∧
    (handle_text_message db req ci now).2 = db := by
  simp [handle_text_message, create_response, pyTruthyStr, hs, hr, hd,
    hsl, hrl, hrne, hrt]

/-- Witness for the amended C5 at a concrete unknown recipient. -/
theorem C5_witness :
    (handle_text_message dbA reqTextNobody ciAlice 5).1.success = false ∧
    (handle_text_message dbA reqTextNobody ciAlice 5).1.message =
      some "接收者不存在" ∧
    (handle_text_message dbA reqTextNobody ciAlice 5).1.rtype = none ∧
    (handle_text_message dbA reqTextNobody ciAlice 5).1.response_to =
      some "text_message" ∧
    (handle_text_message dbA reqTextNobody ciAlice 5).2 = dbA :=
  C5_unknown_recipient dbA reqTextNobody ciAlice 5 "alice" "nobody"
    aliceRow rfl (by decide) (by decide) rfl (by decide) rfl (by decide)

/-- C6: a join_group request from an existing non-member of an existing
group does not succeed — `DatabaseManager` has no `is_group_member`
method, so the handler's membership check raises `AttributeError` and
the `except` clause returns the exception failure response; the
membership table is unchanged and bob is still not a member. -/
theorem C6_join_group_attribute_error :
    (handle_join_group dbG reqJoinG1 ciBob).1.success = false ∧
    (handle_join_group dbG reqJoinG1 ciBob).1.message =
      some "加入群组异常: AttributeError" ∧
    (handle_join_group dbG reqJoinG1 ciBob).2 = dbG ∧
    ((handle_join_group dbG reqJoinG1 ciBob).2.group_members.filter
      (fun m => m.group_id == "g1" && m.user_id == 2)).length = 0 := by
  decide

/-- C7: `group_members` has no UNIQUE constraint on
`(group_id, user_id)`, so inserting a membership that already exists
appends a second row instead of leaving exactly one. -/
theorem C7_duplicate_group_member :
    ((add_group_member dbG "g1" 1).2.group_members.filter
      (fun m => m.group_id == "g1" && m.user_id == 1)).length = 2 := by
  decide

end SecureIM
